import Mathlib

set_option maxRecDepth 100000

/-!
Verification of the fake HLML library (`hack/fake_libhlml/fake_libhlml.c` with the
call-identity enumeration from `pkg/fakehlml/fake_hlml.h`).

The C library keeps all of its state in two global structures (`main_struct` and
`flow_control`); event-sets are separately heap-allocated.  We embed the library
shallowly: the globals become an explicit `State` value threaded through every
operation, device handles (`struct device_info_t *`, pointers into the global
`devices_info` array) become `Option Nat` (the registry position, `none` for NULL),
and event-set handles become explicit `hlml_event_set` values.  C strings become
Lean `String`s; `snprintf` truncation is modelled with `String.take` at the bound
given in the source (character-level; the C bound is in bytes, identical for the
ASCII data the harness uses).  The vendor constant `PCI_ADDR_LEN` lives in the
vendor header (not part of this repository); since every stored PCI address is
NUL-terminated inside that bound, `strncmp(q, stored, PCI_ADDR_LEN)` is zero
exactly when the strings are equal, and we model both the `snprintf` copy and the
comparison as whole-string operations.  `unsigned int` values are `Nat` (callers
can pass anything below `2^32`); the two places where the source casts an
`unsigned int` to `int` are modelled with an explicit two's-complement
reinterpretation `intCast32`.
-/

/-- `#define DEVICES_MAX 8` -/
def DEVICES_MAX : Nat := 8

/-- `#define FAKE_EVENTS_MAX 8` -/
def FAKE_EVENTS_MAX : Nat := 8

/-- `#define NAME_MAX 64` -/
def NAME_MAX : Nat := 64

/-- `#define SERIAL_MAX 64` -/
def SERIAL_MAX : Nat := 64

/-- Two's-complement reinterpretation of a 32-bit unsigned value as a signed
`int`, modelling the C casts `(int)index` and `(int)length` (values at or above
`2^31` become negative). -/
def intCast32 (n : Nat) : Int :=
  if n < 2 ^ 31 then (n : Int) else (n : Int) - 2 ^ 32

/-- The HLML status codes used by the fake library (from the vendor's
`hlml_return_t`; only the values the fake actually returns are listed). -/
inductive hlml_return_t where
  | HLML_SUCCESS
  | HLML_ERROR_UNINITIALIZED
  | HLML_ERROR_INVALID_ARGUMENT
  | HLML_ERROR_NOT_SUPPORTED
  | HLML_ERROR_ALREADY_INITIALIZED
  | HLML_ERROR_NOT_FOUND
  | HLML_ERROR_INSUFFICIENT_SIZE
  | HLML_ERROR_DRIVER_NOT_LOADED
  | HLML_ERROR_TIMEOUT
  | HLML_ERROR_AISLE_ID_MISMATCH
  | HLML_ERROR_MEMORY
  | HLML_ERROR_NO_DATA
  | HLML_ERROR_UNKNOWN
deriving DecidableEq, Repr

/-- `call_identity_t` from `pkg/fakehlml/fake_hlml.h`: one enumerator per
supported call, `FAKE_INIT = 0` up to `FAKE_EVENT_SET_WAIT = 13`;
`FAKE_CALL_IDENTITY_MAX` is the count. -/
inductive call_identity_t where
  | FAKE_INIT
  | FAKE_INIT_WITH_FLAGS
  | FAKE_SHUTDOWN
  | FAKE_DEVICE_GET_COUNT
  | FAKE_DEVICE_GET_HANDLE_BY_PCI_BUS_ID
  | FAKE_DEVICE_GET_HANDLE_BY_INDEX
  | FAKE_DEVICE_GET_HANDLE_BY_UUID
  | FAKE_DEVICE_GET_NAME
  | FAKE_DEVICE_GET_PCI_INFO
  | FAKE_DEVICE_GET_SERIAL
  | FAKE_DEVICE_REGISTER_EVENTS
  | FAKE_EVENT_SET_CREATE
  | FAKE_EVENT_SET_FREE
  | FAKE_EVENT_SET_WAIT
deriving DecidableEq, Repr

/-- The enumerators of `call_identity_t` in declaration order; position `n` in
this list is the enumerator with integer value `n`. -/
def call_identity_list : List call_identity_t :=
  [.FAKE_INIT, .FAKE_INIT_WITH_FLAGS, .FAKE_SHUTDOWN, .FAKE_DEVICE_GET_COUNT,
   .FAKE_DEVICE_GET_HANDLE_BY_PCI_BUS_ID, .FAKE_DEVICE_GET_HANDLE_BY_INDEX,
   .FAKE_DEVICE_GET_HANDLE_BY_UUID, .FAKE_DEVICE_GET_NAME,
   .FAKE_DEVICE_GET_PCI_INFO, .FAKE_DEVICE_GET_SERIAL,
   .FAKE_DEVICE_REGISTER_EVENTS, .FAKE_EVENT_SET_CREATE, .FAKE_EVENT_SET_FREE,
   .FAKE_EVENT_SET_WAIT]

/-- `FAKE_CALL_IDENTITY_MAX = 14`, the number of enumerators before it. -/
def FAKE_CALL_IDENTITY_MAX : Nat := 14

/-- `struct device_info_t`: one registered fake device. -/
structure device_info_t where
  pci_addr : String
  device_id : Nat
  vendor_id : Nat
  serial : String
  index : Nat
deriving DecidableEq, Repr, Inhabited

/-- `struct main_struct_t`.  The C array `devices_info[DEVICES_MAX]` with the
counter `devices_num` is modelled by the list of its first `devices_num`
entries (`devices_num = devices_info.length`); slots past the counter are never
read by the library. -/
structure main_struct_t where
  initialized : Bool
  devices_info : List device_info_t
deriving DecidableEq, Repr

/-- `struct flow_control_t`.  `func_ret` is the per-call error-injection table
(one entry per `call_identity_t` enumerator); `events` is the pending
critical-event queue, `events[0] .. events[events_num-1]` with the counter
modelled as the list length — the list's last element is the most recently
queued serial. -/
structure flow_control_t where
  func_ret : call_identity_t → hlml_return_t
  events : List String

/-- The two C globals `main_struct` and `flow_control` together. -/
structure State where
  main_struct : main_struct_t
  flow_control : flow_control_t

/-- `struct hlml_event_set`: `dev_events[DEVICES_MAX]`, each slot holding a
`struct device_info_t *` — `some p` for a pointer to registry position `p`,
`none` for NULL (an unoccupied slot).  A freshly `calloc`ed set is all-NULL. -/
structure hlml_event_set where
  dev_events : List (Option Nat)
deriving DecidableEq, Repr

/-- `struct hlml_event_data` (vendor header): the device the event fired for and
the event-type bitmask. -/
structure hlml_event_data where
  device : Option Nat
  event_type : Nat
deriving DecidableEq, Repr

/-- `HLML_EVENT_CRITICAL_ERR` (vendor header).  Its exact bit value is defined
in the vendor header, which is not part of this repository; the claims only
need it to be a fixed nonzero bitmask, so we model it as 1. -/
def HLML_EVENT_CRITICAL_ERR : Nat := 1

/-- Dereference a `struct device_info_t *` (a registry position).  A pointer at
or past `devices_num` is dangling — dereferencing it is undefined behaviour in
the C; we model that case as the default record (no claim exercises it). -/
def derefDevice (devices : List device_info_t) (p : Nat) : device_info_t :=
  devices.getD p default

/-- The C globals are zero-initialized at load: `initialized = false`,
`devices_num = 0`, every `func_ret` entry `0` (= `HLML_SUCCESS`),
`events_num = 0`. -/
def boot : State :=
  { main_struct := { initialized := false, devices_info := [] },
    flow_control := { func_ret := fun _ => .HLML_SUCCESS, events := [] } }

/-- The `RETURN_IF_FAKE_ERROR(call_id)` macro: `some r` means the entry for
`call_id` is a non-success status `r` and the caller returns it immediately;
`none` means no injected error, execution continues. -/
def fakeError (s : State) (call_id : call_identity_t) : Option hlml_return_t :=
  if s.flow_control.func_ret call_id ≠ .HLML_SUCCESS then
    some (s.flow_control.func_ret call_id)
  else
    none

/-- `sscanf(str, "%x", &out)` on the hexadecimal strings the harness passes:
fold the leading run of hex digits (arithmetic in `unsigned int`, i.e. modulo
`2^32`).  The C also skips leading whitespace and leaves `out` unchanged on a
non-match; no claim depends on those cases. -/
def parseHex (str : String) : Nat :=
  (str.toList.takeWhile fun c => c.isDigit ∨ ('a' ≤ c ∧ c ≤ 'f') ∨ ('A' ≤ c ∧ c ≤ 'F')).foldl
    (fun acc c =>
      (acc * 16 +
        (if c.isDigit then c.toNat - '0'.toNat
         else if 'a' ≤ c ∧ c ≤ 'f' then c.toNat - 'a'.toNat + 10
         else c.toNat - 'A'.toNat + 10)) % 2 ^ 32)
    0

/-- `snprintf(dst, bound, "%s", src)` into a `bound`-byte buffer keeps the
first `bound - 1` characters of `src`. -/
def snprintfStr (bound : Nat) (src : String) : String :=
  src.take (bound - 1)

/-- `strncpy(dst, src, n)` read back as a C string: the first `n` characters of
`src` (identity when `src` is shorter than `n`, as userspace then sees the
NUL). -/
def strncpyStr (src : String) (n : Nat) : String :=
  String.mk (src.data.take n)

/-- `add_device`: appends a device record at position `devices_num` and
increments the counter.  A NULL `pci_addr`/`serial` stores an empty string.
The C performs no bound check against `DEVICES_MAX` (appending past the array
is undefined behaviour there; the model's list simply grows). -/
def add_device (s : State) (pci_addr : Option String)
    (pci_device_id pci_vendor_id : String) (serial : Option String)
    (index : Nat) : State :=
  { s with
    main_struct :=
      { s.main_struct with
        devices_info := s.main_struct.devices_info ++
          [{ pci_addr := (pci_addr.map (snprintfStr 16)).getD ""
             device_id := parseHex pci_device_id
             vendor_id := parseHex pci_vendor_id
             serial := (serial.map (snprintfStr SERIAL_MAX)).getD ""
             index := index }] } }

/-- `reset`: clears `initialized`, the device counter, the pending-event
counter, and sets every error-injection entry to `false` (integer `0`, which is
`HLML_SUCCESS`).  The C leaves the stale `devices_info` records in the array,
but only the first `devices_num` of them are ever read, so clearing the
modelled list is the same observable state. -/
def reset (_s : State) : State :=
  { main_struct := { initialized := false, devices_info := [] },
    flow_control := { func_ret := fun _ => .HLML_SUCCESS, events := [] } }

/-- `add_critical_event`: if `events_num == FAKE_EVENTS_MAX` the event is
dropped with only a diagnostic `printf`; otherwise the serial (truncated by
`snprintf` to the 64-byte slot, NULL becoming the empty string) is appended and
the counter incremented. -/
def add_critical_event (s : State) (serial : Option String) : State :=
  if s.flow_control.events.length = FAKE_EVENTS_MAX then
    s
  else
    { s with
      flow_control :=
        { s.flow_control with
          events := s.flow_control.events ++
            [(serial.map (snprintfStr SERIAL_MAX)).getD ""] } }

/-- `reset_events`: clears only the pending-event counter. -/
def reset_events (s : State) : State :=
  { s with flow_control := { s.flow_control with events := [] } }

/-- `set_error`: `assert(call_id < FAKE_CALL_IDENTITY_MAX)` — an out-of-range
identifier aborts the process (`none`); in range, the entry for that one
enumerator (position `call_id` of `call_identity_list`) is overwritten. -/
def set_error (s : State) (call_id : Nat) (errCode : hlml_return_t) :
    Option State :=
  match call_identity_list.get? call_id with
  | none => none
  | some c =>
    some { s with
           flow_control :=
             { s.flow_control with
               func_ret := Function.update s.flow_control.func_ret c errCode } }

/-- `hlml_init_with_flags`: injected-error short-circuit, then sets
`initialized` and reports success (`flags` is ignored). -/
def hlml_init_with_flags (s : State) (_flags : Nat) : hlml_return_t × State :=
  match fakeError s .FAKE_INIT_WITH_FLAGS with
  | some r => (r, s)
  | none =>
    (.HLML_SUCCESS, { s with main_struct := { s.main_struct with initialized := true } })

/-- `hlml_init`: injected-error short-circuit for `FAKE_INIT`, then delegates
to `hlml_init_with_flags(0)`. -/
def hlml_init (s : State) : hlml_return_t × State :=
  match fakeError s .FAKE_INIT with
  | some r => (r, s)
  | none => hlml_init_with_flags s 0

/-- `hlml_shutdown`: injected-error short-circuit, then clears `initialized`. -/
def hlml_shutdown (s : State) : hlml_return_t × State :=
  match fakeError s .FAKE_SHUTDOWN with
  | some r => (r, s)
  | none =>
    (.HLML_SUCCESS, { s with main_struct := { s.main_struct with initialized := false } })

/-- `hlml_device_get_count`: injected-error short-circuit, null-pointer check,
then writes `devices_num` — with no check of `initialized`.  The output
argument is a pointer, modelled as `device_count_nonnull` plus the value
written (`none` when nothing was written). -/
def hlml_device_get_count (s : State) (device_count_nonnull : Bool) :
    hlml_return_t × Option Nat :=
  match fakeError s .FAKE_DEVICE_GET_COUNT with
  | some r => (r, none)
  | none =>
    if device_count_nonnull = false then (.HLML_ERROR_INVALID_ARGUMENT, none)
    else (.HLML_SUCCESS, some s.main_struct.devices_info.length)

/-- The scan loop of `hlml_device_get_handle_by_pci_bus_id`: walk the registry
in insertion order and return the position of the first device for which
`strncmp(pci_addr, device_info->pci_addr, PCI_ADDR_LEN)` is NONZERO — i.e. the
first device whose stored address does NOT equal the query (the comparison in
the source is inverted). -/
def pciScan (pci_addr : String) : List device_info_t → Option Nat
  | [] => none
  | di :: rest =>
    if pci_addr ≠ di.pci_addr then some 0
    else (pciScan pci_addr rest).map (· + 1)

/-- `hlml_device_get_handle_by_pci_bus_id`: injected-error short-circuit,
`initialized` check, null checks, then the (inverted) scan; `HLML_ERROR_NOT_FOUND`
when the scan exhausts the registry. -/
def hlml_device_get_handle_by_pci_bus_id (s : State) (pci_addr : Option String)
    (device_nonnull : Bool) : hlml_return_t × Option Nat :=
  match fakeError s .FAKE_DEVICE_GET_HANDLE_BY_PCI_BUS_ID with
  | some r => (r, none)
  | none =>
    if s.main_struct.initialized = false then (.HLML_ERROR_UNINITIALIZED, none)
    else
      match pci_addr, device_nonnull with
      | none, _ => (.HLML_ERROR_INVALID_ARGUMENT, none)
      | some _, false => (.HLML_ERROR_INVALID_ARGUMENT, none)
      | some addr, true =>
        match pciScan addr s.main_struct.devices_info with
        | some p => (.HLML_SUCCESS, some p)
        | none => (.HLML_ERROR_NOT_FOUND, none)

/-- The scan loop of `hlml_device_get_handle_by_index`: position of the first
device whose `index` field equals the query (`unsigned int` equality). -/
def indexScan (index : Nat) : List device_info_t → Option Nat
  | [] => none
  | di :: rest =>
    if index = di.index then some 0
    else (indexScan index rest).map (· + 1)

/-- `hlml_device_get_handle_by_index`: injected-error short-circuit,
`initialized` check, then `if (!device || ((int)index >= main_struct.devices_num))`
— note the cast of the unsigned `index` to `int` — then the scan on the `index`
field. -/
def hlml_device_get_handle_by_index (s : State) (index : Nat)
    (device_nonnull : Bool) : hlml_return_t × Option Nat :=
  match fakeError s .FAKE_DEVICE_GET_HANDLE_BY_INDEX with
  | some r => (r, none)
  | none =>
    if s.main_struct.initialized = false then (.HLML_ERROR_UNINITIALIZED, none)
    else if device_nonnull = false ∨
        intCast32 index ≥ (s.main_struct.devices_info.length : Int) then
      (.HLML_ERROR_INVALID_ARGUMENT, none)
    else
      match indexScan index s.main_struct.devices_info with
      | some p => (.HLML_SUCCESS, some p)
      | none => (.HLML_ERROR_NOT_FOUND, none)

/-- `hlml_device_get_handle_by_UUID`: unconditional `HLML_SUCCESS`, no error
check, no state change, nothing written. -/
def hlml_device_get_handle_by_UUID (_s : State) (_uuid : Option String)
    (_device_nonnull : Bool) : hlml_return_t :=
  .HLML_SUCCESS

/-- `hlml_device_get_name`: unconditional `HLML_SUCCESS`, no error check, no
state change, nothing written. -/
def hlml_device_get_name (_s : State) (_device : Option Nat) (_length : Nat) :
    hlml_return_t :=
  .HLML_SUCCESS

/-- `hlml_pci_info_t` (vendor header): the two fields the fake fills in. -/
structure hlml_pci_info_t where
  bus_id : String
  pci_device_id : Nat
deriving DecidableEq, Repr

/-- `hlml_device_get_pci_info`: injected-error short-circuit, `initialized`
check, null checks, then copies the PCI address and packs
`device_id | (vendor_id << 16)` (arithmetic in `unsigned int`). -/
def hlml_device_get_pci_info (s : State) (device : Option Nat)
    (pci_nonnull : Bool) : hlml_return_t × Option hlml_pci_info_t :=
  match fakeError s .FAKE_DEVICE_GET_PCI_INFO with
  | some r => (r, none)
  | none =>
    if s.main_struct.initialized = false then (.HLML_ERROR_UNINITIALIZED, none)
    else
      match device, pci_nonnull with
      | none, _ => (.HLML_ERROR_INVALID_ARGUMENT, none)
      | some _, false => (.HLML_ERROR_INVALID_ARGUMENT, none)
      | some d, true =>
        (.HLML_SUCCESS,
         some { bus_id := (derefDevice s.main_struct.devices_info d).pci_addr
                pci_device_id :=
                  ((derefDevice s.main_struct.devices_info d).device_id |||
                   ((derefDevice s.main_struct.devices_info d).vendor_id <<< 16)) % 2 ^ 32 })

/-- The slot-claim loop of `hlml_device_register_events`: scan the 8 slots in
order; the first NULL slot is claimed for this device (storing a NULL device
handle leaves the slot NULL, as in the C), a slot already holding this exact
pointer stops the scan with no change; `none` (all slots hold other devices)
maps to `HLML_ERROR_INVALID_ARGUMENT` with the set untouched. -/
def registerScan : List (Option Nat) → Option Nat → Option (List (Option Nat))
  | [], _ => none
  | none :: rest, d => some (d :: rest)
  | some d' :: rest, d =>
    if some d' = d then some (some d' :: rest)
    else (registerScan rest d).map (some d' :: ·)

/-- `hlml_device_register_events`: injected-error short-circuit, then the
slot-claim scan (no `initialized` check and no null check on the arguments is
performed by the source; a NULL `set` would be dereferenced — undefined
behaviour — so only valid sets are modelled).  `event_types` is ignored. -/
def hlml_device_register_events (s : State) (device : Option Nat)
    (_event_types : Nat) (es : hlml_event_set) :
    hlml_return_t × hlml_event_set :=
  match fakeError s .FAKE_DEVICE_REGISTER_EVENTS with
  | some r => (r, es)
  | none =>
    match registerScan es.dev_events device with
    | some slots => (.HLML_SUCCESS, { dev_events := slots })
    | none => (.HLML_ERROR_INVALID_ARGUMENT, es)

/-- `hlml_event_set_create`: injected-error short-circuit, `initialized`
check, null check, then `calloc`s a zeroed event-set (all slots NULL).  The
`HLML_ERROR_MEMORY` branch on allocation failure is environment-dependent and
not modelled: allocation always succeeds here. -/
def hlml_event_set_create (s : State) (set_nonnull : Bool) :
    hlml_return_t × Option hlml_event_set :=
  match fakeError s .FAKE_EVENT_SET_CREATE with
  | some r => (r, none)
  | none =>
    if s.main_struct.initialized = false then (.HLML_ERROR_UNINITIALIZED, none)
    else if set_nonnull = false then (.HLML_ERROR_INVALID_ARGUMENT, none)
    else (.HLML_SUCCESS, some { dev_events := List.replicate DEVICES_MAX none })

/-- `hlml_event_set_free`: injected-error short-circuit, `initialized` check,
null check, then frees the set (the deallocation itself has no modelled
effect). -/
def hlml_event_set_free (s : State) (set : Option hlml_event_set) :
    hlml_return_t :=
  match fakeError s .FAKE_EVENT_SET_FREE with
  | some r => r
  | none =>
    if s.main_struct.initialized = false then .HLML_ERROR_UNINITIALIZED
    else
      match set with
      | none => .HLML_ERROR_INVALID_ARGUMENT
      | some _ => .HLML_SUCCESS

/-- The scan loop of `hlml_event_set_wait`: walk the slots in order, stopping
at the first NULL slot (`/* no more devices registered */`); a registered
device matches when the queue is nonempty and its LAST entry
(`events[events_num-1]`, the most recently queued serial) `strcmp`-equals that
device's serial; the first match is returned. -/
def waitScan (devices : List device_info_t) (events : List String) :
    List (Option Nat) → Option Nat
  | [] => none
  | none :: _ => none
  | some d :: rest =>
    if 0 < events.length ∧
        events.getLast? = some (derefDevice devices d).serial then
      some d
    else waitScan devices events rest

/-- `hlml_event_set_wait`: injected-error short-circuit, `initialized` check,
null checks on the set and the output pointer, then the scan; on a match the
tail event is consumed (`events_num --`) and an event record
`{device, HLML_EVENT_CRITICAL_ERR}` is produced; otherwise
`HLML_ERROR_TIMEOUT`.  `timeoutms` is never read: the call is synchronous. -/
def hlml_event_set_wait (s : State) (set : Option hlml_event_set)
    (data_nonnull : Bool) (_timeoutms : Nat) :
    hlml_return_t × State × Option hlml_event_data :=
  match fakeError s .FAKE_EVENT_SET_WAIT with
  | some r => (r, s, none)
  | none =>
    if s.main_struct.initialized = false then (.HLML_ERROR_UNINITIALIZED, s, none)
    else
      match set, data_nonnull with
      | none, _ => (.HLML_ERROR_INVALID_ARGUMENT, s, none)
      | some _, false => (.HLML_ERROR_INVALID_ARGUMENT, s, none)
      | some es, true =>
        match waitScan s.main_struct.devices_info s.flow_control.events
            es.dev_events with
        | some d =>
          (.HLML_SUCCESS,
           { s with
             flow_control :=
               { s.flow_control with events := s.flow_control.events.dropLast } },
           some { device := some d, event_type := HLML_EVENT_CRITICAL_ERR })
        | none => (.HLML_ERROR_TIMEOUT, s, none)

/-- `hlml_device_get_serial`: `assert(serial && length > 0)` aborts (`none`) on
a NULL buffer or zero length; an injected error blanks the buffer and returns
that status; a NULL device handle yields an empty string with success; then
`if (SERIAL_MAX > (int)length)` — note the cast of the unsigned `length` to
`int` — reports insufficient size; otherwise `strncpy`s the device's serial
into the buffer.  The second component is the buffer's contents after the call
(`none` when the call never wrote it). -/
def hlml_device_get_serial (s : State) (device : Option Nat)
    (serial_nonnull : Bool) (length : Nat) :
    Option (hlml_return_t × Option String) :=
  if serial_nonnull = false ∨ length = 0 then none
  else if s.flow_control.func_ret .FAKE_DEVICE_GET_SERIAL ≠ .HLML_SUCCESS then
    some (s.flow_control.func_ret .FAKE_DEVICE_GET_SERIAL, some "")
  else
    match device with
    | none => some (.HLML_SUCCESS, some "")
    | some d =>
      if (SERIAL_MAX : Int) > intCast32 length then
        some (.HLML_ERROR_INSUFFICIENT_SIZE, none)
      else
        some (.HLML_SUCCESS,
              some (strncpyStr (derefDevice s.main_struct.devices_info d).serial length))

/-! ## Spec-side characterization of the wait scan

The specification describes `hlml_event_set_wait` as: scan the event-set's
registered devices in registration order and deliver to the FIRST registered
device whose serial equals the serial of the most recently queued event.
`specFirstMatch` is written from those words (registered devices = the slots up
to the first NULL one), to be compared with the source-derived `waitScan`. -/

/-- Spec-side: the first registered device (slots before the first NULL, in
order) whose serial equals the most recently queued event's serial. -/
def specFirstMatch (devices : List device_info_t) (events : List String)
    (slots : List (Option Nat)) : Option Nat :=
  ((slots.takeWhile Option.isSome).filterMap id).find?
    (fun d => decide (0 < events.length ∧
      events.getLast? = some (derefDevice devices d).serial))

/-! ## Concrete scenario from the specification

Devices A (serial "S1") and B (serial "S2") are registered, the library is
initialized, both devices are registered into one event set in that order, and
a critical event for "S2" is queued. -/

/-- Registry with device A ("S1", index 0) and device B ("S2", index 1). -/
def s_devices : State :=
  add_device
    (add_device boot (some "0000:01:00.0") "1020" "8086" (some "S1") 0)
    (some "0000:02:00.0") "1020" "8086" (some "S2") 1

/-- The scenario state after `hlml_init` (no injected errors, empty queue). -/
def s_ready : State := (hlml_init s_devices).2

/-- A freshly created (all-NULL) event set. -/
def es_empty : hlml_event_set := { dev_events := List.replicate DEVICES_MAX none }

/-- The event set after registering device A (registry position 0). -/
def es_A : hlml_event_set :=
  (hlml_device_register_events s_ready (some 0) HLML_EVENT_CRITICAL_ERR es_empty).2

/-- The event set after registering devices A then B (positions 0 and 1). -/
def es_AB : hlml_event_set :=
  (hlml_device_register_events s_ready (some 1) HLML_EVENT_CRITICAL_ERR es_A).2

/-- The scenario state after `add_critical_event("S2")`. -/
def s_queued : State := add_critical_event s_ready (some "S2")

/-- A registry holding a single device whose `index` FIELD is 1 while
`devices_num` is 1, after `hlml_init` (no injected errors). -/
def s_oneDev : State :=
  (hlml_init (add_device boot (some "0000:03:00.0") "1020" "8086" (some "S9") 1)).2

/-- `boot` after `set_error(FAKE_DEVICE_GET_NAME, TIMEOUT)` and
`set_error(FAKE_DEVICE_GET_HANDLE_BY_UUID, TIMEOUT)` (enumerator values 7 and
6). -/
def s_stub_err : State :=
  (set_error ((set_error boot 7 .HLML_ERROR_TIMEOUT).getD boot) 6
    .HLML_ERROR_TIMEOUT).getD boot

/-- A state whose pending-event queue is at capacity (8 entries). -/
def s_full : State :=
  { boot with
    flow_control :=
      { boot.flow_control with
        events := List.replicate FAKE_EVENTS_MAX "S8" } }

/-- A state with `HLML_ERROR_TIMEOUT` injected for every operation. -/
def s_allTimeout : State :=
  { boot with
    flow_control :=
      { boot.flow_control with func_ret := fun _ => .HLML_ERROR_TIMEOUT } }

/-! ## Helper lemmas -/

/-- No injected error for `call_id` means the macro falls through. -/
theorem fakeError_none (s : State) (c : call_identity_t)
    (h : s.flow_control.func_ret c = .HLML_SUCCESS) : fakeError s c = none := by
  simp [fakeError, h]

/-- An injected non-success status is returned by the macro. -/
theorem fakeError_some (s : State) (c : call_identity_t) (r : hlml_return_t)
    (h : s.flow_control.func_ret c = r) (hr : r ≠ .HLML_SUCCESS) :
    fakeError s c = some r := by
  simp [fakeError, h, hr]

/-- `hlml_init_with_flags` never touches `flow_control`. -/
theorem init_with_flags_flow_control (s : State) (f : Nat) :
    (hlml_init_with_flags s f).2.flow_control = s.flow_control := by
  unfold hlml_init_with_flags
  cases fakeError s .FAKE_INIT_WITH_FLAGS <;> rfl

/-- `hlml_init` never touches `flow_control`. -/
theorem init_flow_control (s : State) :
    (hlml_init s).2.flow_control = s.flow_control := by
  unfold hlml_init
  cases fakeError s .FAKE_INIT
  · exact init_with_flags_flow_control s 0
  · rfl

/-- `hlml_shutdown` never touches `flow_control`. -/
theorem shutdown_flow_control (s : State) :
    (hlml_shutdown s).2.flow_control = s.flow_control := by
  unfold hlml_shutdown
  cases fakeError s .FAKE_SHUTDOWN <;> rfl

/-- `hlml_event_set_wait` either leaves the event queue alone or drops its
last entry. -/
theorem wait_events_eq_or_dropLast (s : State) (set : Option hlml_event_set)
    (b : Bool) (t : Nat) :
    (hlml_event_set_wait s set b t).2.1.flow_control.events =
        s.flow_control.events ∨
      (hlml_event_set_wait s set b t).2.1.flow_control.events =
        s.flow_control.events.dropLast := by
  unfold hlml_event_set_wait
  repeat' split
  all_goals first
    | exact Or.inl rfl
    | exact Or.inr rfl

/-- The source-derived wait scan computes exactly the spec-side first match:
the first registered device (before the first NULL slot) whose serial equals
the most recently queued event's serial. -/
theorem waitScan_eq_specFirstMatch (devices : List device_info_t)
    (events : List String) (slots : List (Option Nat)) :
    waitScan devices events slots = specFirstMatch devices events slots := by
  induction slots with
  | nil => rfl
  | cons a rest ih =>
    cases a with
    | none => simp [waitScan, specFirstMatch]
    | some d =>
      by_cases h : 0 < events.length ∧
          events.getLast? = some (derefDevice devices d).serial
      · simp [waitScan, specFirstMatch, h]
      · simp only [waitScan, specFirstMatch, List.takeWhile, Option.isSome,
          List.filterMap, List.find?, if_neg h, decide_eq_true_eq] at ih ⊢
        simp [h, ih]

/-- An empty queue never matches. -/
theorem specFirstMatch_nil_events (devices : List device_info_t)
    (slots : List (Option Nat)) : specFirstMatch devices [] slots = none := by
  apply List.find?_eq_none.mpr
  intro x _
  simp

/-- The PCI scan finds position `i` whenever the device there differs from the
query and every earlier device equals it (the comparison in the source is
inverted). -/
theorem pciScan_eq_some (addr : String) :
    ∀ (l : List device_info_t) (i : Nat) (di : device_info_t),
      l.get? i = some di → di.pci_addr ≠ addr →
      (∀ j dj, j < i → l.get? j = some dj → dj.pci_addr = addr) →
      pciScan addr l = some i := by
  intro l
  induction l with
  | nil => intro i di h; simp at h
  | cons d rest ih =>
    intro i di hget hne hmin
    cases i with
    | zero =>
      simp at hget
      subst hget
      simp [pciScan, Ne.symm hne]
    | succ i =>
      have hd : d.pci_addr = addr := hmin 0 d (Nat.succ_pos i) rfl
      have : ¬addr ≠ d.pci_addr := by simp [hd]
      simp only [pciScan, if_neg this]
      rw [ih i di hget hne (fun j dj hj hg => hmin (j + 1) dj (by omega) hg)]
      rfl

/-- The PCI scan exhausts the registry exactly when every stored address
equals the query. -/
theorem pciScan_eq_none_iff (addr : String) (l : List device_info_t) :
    pciScan addr l = none ↔ ∀ di ∈ l, di.pci_addr = addr := by
  induction l with
  | nil => simp [pciScan]
  | cons d rest ih =>
    by_cases h : addr ≠ d.pci_addr
    · simp [pciScan, h, Ne.symm h]
    · simp only [not_not] at h
      have hcond : ¬addr ≠ d.pci_addr := by simp [h]
      simp only [pciScan, if_neg hcond, Option.map_eq_none', ih]
      constructor
      · intro hr di hmem
        rcases List.mem_cons.mp hmem with rfl | hm
        · exact h.symm
        · exact hr di hm
      · intro hall di hm
        exact hall di (List.mem_cons_of_mem _ hm)

/-- If some device carries the queried `index` field, the index scan returns
the position of the first such device. -/
theorem indexScan_first (t : Nat) :
    ∀ (l : List device_info_t), (∃ di ∈ l, di.index = t) →
      ∃ i di, l.get? i = some di ∧ di.index = t ∧
        (∀ j dj, j < i → l.get? j = some dj → dj.index ≠ t) ∧
        indexScan t l = some i := by
  intro l
  induction l with
  | nil => intro h; simp at h
  | cons d rest ih =>
    intro hex
    by_cases hd : t = d.index
    · exact ⟨0, d, rfl, hd.symm, fun j dj hj => absurd hj (by omega),
        by simp [indexScan, hd]⟩
    · have hex' : ∃ di ∈ rest, di.index = t := by
        rcases hex with ⟨di, hmem, hidx⟩
        rcases List.mem_cons.mp hmem with rfl | hmem'
        · exact absurd hidx.symm hd
        · exact ⟨di, hmem', hidx⟩
      rcases ih hex' with ⟨i, di, hget, hidx, hmin, hscan⟩
      refine ⟨i + 1, di, by simpa using hget, hidx, ?_, ?_⟩
      · intro j dj hj hg
        cases j with
        | zero =>
          simp at hg
          subst hg
          exact fun hc => hd hc.symm
        | succ j => exact hmin j dj (by omega) (by simpa using hg)
      · simp [indexScan, hd, hscan]

/-- Re-running the register scan with the same device pointer on its own
output changes nothing and succeeds. -/
theorem registerScan_idem :
    ∀ (slots : List (Option Nat)) (d : Option Nat) (slots1 : List (Option Nat)),
      registerScan slots d = some slots1 → registerScan slots1 d = some slots1 := by
  intro slots
  induction slots with
  | nil => intro d s1 h; simp [registerScan] at h
  | cons a rest ih =>
    intro d s1 h
    cases a with
    | none =>
      simp [registerScan] at h
      subst h
      cases d with
      | none => rfl
      | some k => simp [registerScan]
    | some a' =>
      by_cases hda : some a' = d
      · subst hda
        simp [registerScan] at h
        subst h
        simp [registerScan]
      · simp only [registerScan, if_neg hda, Option.map_eq_some'] at h
        rcases h with ⟨r, hr, rfl⟩
        simp [registerScan, hda, ih d r hr]

/-- When every slot is occupied by a different device pointer, the register
scan fails. -/
theorem registerScan_full :
    ∀ (slots : List (Option Nat)) (d : Option Nat),
      (∀ a ∈ slots, a ≠ none ∧ a ≠ d) → registerScan slots d = none := by
  intro slots
  induction slots with
  | nil => intro d _; rfl
  | cons a rest ih =>
    intro d h
    rcases h a (List.mem_cons_self a rest) with ⟨hn, hd⟩
    cases a with
    | none => exact absurd rfl hn
    | some a' =>
      simp [registerScan, hd, ih d (fun x hx => h x (List.mem_cons_of_mem _ hx))]

/-! ## Claim theorems -/

/-- C6: `reset()` is idempotent (running it twice from any state yields the
same state as running it once) and from every state restores: device count
zero, initialized flag cleared, every error-injection entry `HLML_SUCCESS`,
empty event queue. -/
theorem C6_reset_idempotent_restores (s : State) :
    reset (reset s) = reset s
    ∧ (reset s).main_struct.devices_info.length = 0
    ∧ (reset s).main_struct.initialized = false
    ∧ (∀ c, (reset s).flow_control.func_ret c = .HLML_SUCCESS)
    ∧ (reset s).flow_control.events = [] :=
  ⟨rfl, rfl, rfl, fun _ => rfl, rfl⟩

/-- C10: `hlml_device_get_count` performs no initialization check — for every
state, with no injected error for it and a non-null output pointer, it returns
`HLML_SUCCESS` and writes the current device count even when the library is
uninitialized, and never returns `HLML_ERROR_UNINITIALIZED`; by contrast the
two lookup operations do return `HLML_ERROR_UNINITIALIZED` when the library is
uninitialized. -/
theorem C10_get_count_no_init_check (s : State)
    (herr : s.flow_control.func_ret .FAKE_DEVICE_GET_COUNT = .HLML_SUCCESS) :
    hlml_device_get_count s true =
      (.HLML_SUCCESS, some s.main_struct.devices_info.length)
    ∧ (∀ b, (hlml_device_get_count s b).1 ≠ .HLML_ERROR_UNINITIALIZED)
    ∧ (s.main_struct.initialized = false →
        s.flow_control.func_ret .FAKE_DEVICE_GET_HANDLE_BY_INDEX = .HLML_SUCCESS →
        ∀ i b, hlml_device_get_handle_by_index s i b =
          (.HLML_ERROR_UNINITIALIZED, none))
    ∧ (s.main_struct.initialized = false →
        s.flow_control.func_ret .FAKE_DEVICE_GET_HANDLE_BY_PCI_BUS_ID =
          .HLML_SUCCESS →
        ∀ a b, hlml_device_get_handle_by_pci_bus_id s a b =
          (.HLML_ERROR_UNINITIALIZED, none)) := by
  refine ⟨?_, ?_, ?_, ?_⟩
  · simp [hlml_device_get_count, fakeError_none s _ herr]
  · intro b
    cases b <;> simp [hlml_device_get_count, fakeError_none s _ herr]
  · intro hinit herr2 i b
    simp [hlml_device_get_handle_by_index, fakeError_none s _ herr2, hinit]
  · intro hinit herr2 a b
    simp [hlml_device_get_handle_by_pci_bus_id, fakeError_none s _ herr2, hinit]

/-- Witness for C10 at the zero-initialized (uninitialized) state. -/
theorem C10_witness :
    hlml_device_get_count boot true = (.HLML_SUCCESS, some 0)
    ∧ hlml_device_get_handle_by_index boot 0 true =
        (.HLML_ERROR_UNINITIALIZED, none) := by
  obtain ⟨h1, _, h3, _⟩ := C10_get_count_no_init_check boot rfl
  exact ⟨h1, h3 rfl rfl 0 true⟩

/-- C9: `set_error` requires an in-range operation identifier as a fatal
(assertion-level) precondition; under `call_id < FAKE_CALL_IDENTITY_MAX` the
assertion-failure branch is unreachable (the call produces a state rather than
aborting) and it overwrites exactly the table entry of that one enumerator,
leaving every other entry, the device registry and the event queue unchanged;
out-of-range identifiers abort. -/
theorem C9_set_error_single_entry (s : State) (n : Nat) (errCode : hlml_return_t)
    (h : n < FAKE_CALL_IDENTITY_MAX) :
    (∃ op s', call_identity_list.get? n = some op
      ∧ set_error s n errCode = some s'
      ∧ s'.flow_control.func_ret op = errCode
      ∧ (∀ op', op' ≠ op →
          s'.flow_control.func_ret op' = s.flow_control.func_ret op')
      ∧ s'.main_struct = s.main_struct
      ∧ s'.flow_control.events = s.flow_control.events)
    ∧ (∀ m, FAKE_CALL_IDENTITY_MAX ≤ m → ∀ e, set_error s m e = none) := by
  constructor
  · have hlt : n < call_identity_list.length := h
    have hget := List.get?_eq_get hlt
    refine ⟨call_identity_list.get ⟨n, hlt⟩,
      { s with
        flow_control :=
          { s.flow_control with
            func_ret := Function.update s.flow_control.func_ret
              (call_identity_list.get ⟨n, hlt⟩) errCode } },
      hget, ?_, ?_, ?_, rfl, rfl⟩
    · unfold set_error
      rw [hget]
    · exact Function.update_same _ _ _
    · intro op' hne
      exact Function.update_noteq hne _ _
  · intro m hm e
    have hg : call_identity_list.get? m = none := List.get?_eq_none.mpr hm
    unfold set_error
    rw [hg]

/-- Witness for C9: injecting a timeout for enumerator 9
(`FAKE_DEVICE_GET_SERIAL`) succeeds and touches only that entry. -/
theorem C9_witness :
    ∃ s', set_error boot 9 .HLML_ERROR_TIMEOUT = some s'
      ∧ s'.flow_control.func_ret .FAKE_DEVICE_GET_SERIAL = .HLML_ERROR_TIMEOUT
      ∧ s'.flow_control.func_ret .FAKE_INIT = .HLML_SUCCESS := by
  obtain ⟨⟨op, s', hget, hse, hset, hother, _, _⟩, _⟩ :=
    C9_set_error_single_entry boot 9 .HLML_ERROR_TIMEOUT (by decide)
  have hval : call_identity_list.get? 9 =
      some call_identity_t.FAKE_DEVICE_GET_SERIAL := rfl
  rw [hval] at hget
  obtain rfl := (Option.some.inj hget).symm
  refine ⟨s', hse, hset, ?_⟩
  rw [hother .FAKE_INIT (by decide)]
  rfl

/-- C5: the pending-event queue length never exceeds 8 — adding a critical
event to a full queue leaves the state entirely unchanged (silent drop), and
every state-changing operation of the library preserves
`events_num ≤ FAKE_EVENTS_MAX`. -/
theorem C5_event_queue_bounded (s : State)
    (hlen : s.flow_control.events.length ≤ FAKE_EVENTS_MAX) :
    (s.flow_control.events.length = FAKE_EVENTS_MAX →
      ∀ ser, add_critical_event s ser = s)
    ∧ (∀ ser,
        (add_critical_event s ser).flow_control.events.length ≤ FAKE_EVENTS_MAX)
    ∧ (hlml_init s).2.flow_control.events.length ≤ FAKE_EVENTS_MAX
    ∧ (∀ f,
        (hlml_init_with_flags s f).2.flow_control.events.length ≤ FAKE_EVENTS_MAX)
    ∧ (hlml_shutdown s).2.flow_control.events.length ≤ FAKE_EVENTS_MAX
    ∧ (reset s).flow_control.events.length ≤ FAKE_EVENTS_MAX
    ∧ (reset_events s).flow_control.events.length ≤ FAKE_EVENTS_MAX
    ∧ (∀ a b c d i,
        (add_device s a b c d i).flow_control.events.length ≤ FAKE_EVENTS_MAX)
    ∧ (∀ n e s', set_error s n e = some s' →
        s'.flow_control.events.length ≤ FAKE_EVENTS_MAX)
    ∧ (∀ set b t,
        (hlml_event_set_wait s set b t).2.1.flow_control.events.length ≤
          FAKE_EVENTS_MAX) := by
  refine ⟨?_, ?_, ?_, ?_, ?_, ?_, ?_, ?_, ?_, ?_⟩
  · intro h8 ser
    simp [add_critical_event, h8]
  · intro ser
    by_cases h8 : s.flow_control.events.length = FAKE_EVENTS_MAX
    · simp [add_critical_event, h8]
    · simp only [add_critical_event, if_neg h8, List.length_append,
        List.length_cons, List.length_nil]
      omega
  · rw [init_flow_control]
    exact hlen
  · intro f
    rw [init_with_flags_flow_control]
    exact hlen
  · rw [shutdown_flow_control]
    exact hlen
  · simp [reset]
  · simp [reset_events]
  · intro a b c d i
    simpa [add_device] using hlen
  · intro n e s' hse
    unfold set_error at hse
    rcases hg : call_identity_list.get? n with _ | c
    · rw [hg] at hse
      exact absurd hse (by simp)
    · rw [hg] at hse
      simp only [Option.some.injEq] at hse
      subst hse
      exact hlen
  · intro set b t
    rcases wait_events_eq_or_dropLast s set b t with h | h
    · rw [h]
      exact hlen
    · rw [h]
      have := List.length_dropLast s.flow_control.events
      omega

/-- Witness for C5 at a full queue: the 9th event is silently dropped. -/
theorem C5_witness : add_critical_event s_full (some "S9") = s_full :=
  (C5_event_queue_bounded s_full (by decide)).1 (by decide) (some "S9")

/-- C2 (amended): after an error `S ≠ HLML_SUCCESS` is injected for an
operation, every call to that operation returns exactly `S` before argument
validation and without side effects (state and outputs untouched; the
initialized flag is not mutated) — for every entry point that consults the
error-injection table, i.e. all supported calls except the two unconditional
stubs `hlml_device_get_name` and `hlml_device_get_handle_by_UUID`; for
`hlml_device_get_serial` the short-circuit runs after the fatal buffer
assertion and blanks the output buffer. -/
theorem C2_amended_injected_error_short_circuits (s : State)
    (S : hlml_return_t) (hS : S ≠ .HLML_SUCCESS) :
    (s.flow_control.func_ret .FAKE_INIT = S → hlml_init s = (S, s))
    ∧ (∀ f, s.flow_control.func_ret .FAKE_INIT_WITH_FLAGS = S →
        hlml_init_with_flags s f = (S, s))
    ∧ (s.flow_control.func_ret .FAKE_SHUTDOWN = S → hlml_shutdown s = (S, s))
    ∧ (∀ b, s.flow_control.func_ret .FAKE_DEVICE_GET_COUNT = S →
        hlml_device_get_count s b = (S, none))
    ∧ (∀ a b,
        s.flow_control.func_ret .FAKE_DEVICE_GET_HANDLE_BY_PCI_BUS_ID = S →
        hlml_device_get_handle_by_pci_bus_id s a b = (S, none))
    ∧ (∀ i b, s.flow_control.func_ret .FAKE_DEVICE_GET_HANDLE_BY_INDEX = S →
        hlml_device_get_handle_by_index s i b = (S, none))
    ∧ (∀ d b, s.flow_control.func_ret .FAKE_DEVICE_GET_PCI_INFO = S →
        hlml_device_get_pci_info s d b = (S, none))
    ∧ (∀ d len, 0 < len → s.flow_control.func_ret .FAKE_DEVICE_GET_SERIAL = S →
        hlml_device_get_serial s d true len = some (S, some ""))
    ∧ (∀ d t es, s.flow_control.func_ret .FAKE_DEVICE_REGISTER_EVENTS = S →
        hlml_device_register_events s d t es = (S, es))
    ∧ (∀ b, s.flow_control.func_ret .FAKE_EVENT_SET_CREATE = S →
        hlml_event_set_create s b = (S, none))
    ∧ (∀ set, s.flow_control.func_ret .FAKE_EVENT_SET_FREE = S →
        hlml_event_set_free s set = S)
    ∧ (∀ set b t, s.flow_control.func_ret .FAKE_EVENT_SET_WAIT = S →
        hlml_event_set_wait s set b t = (S, s, none)) := by
  refine ⟨?_, ?_, ?_, ?_, ?_, ?_, ?_, ?_, ?_, ?_, ?_, ?_⟩
  · intro h
    simp [hlml_init, fakeError_some s _ S h hS]
  · intro f h
    simp [hlml_init_with_flags, fakeError_some s _ S h hS]
  · intro h
    simp [hlml_shutdown, fakeError_some s _ S h hS]
  · intro b h
    simp [hlml_device_get_count, fakeError_some s _ S h hS]
  · intro a b h
    simp [hlml_device_get_handle_by_pci_bus_id, fakeError_some s _ S h hS]
  · intro i b h
    simp [hlml_device_get_handle_by_index, fakeError_some s _ S h hS]
  · intro d b h
    simp [hlml_device_get_pci_info, fakeError_some s _ S h hS]
  · intro d len hpos h
    simp [hlml_device_get_serial, h, hS, hpos.ne']
  · intro d t es h
    simp [hlml_device_register_events, fakeError_some s _ S h hS]
  · intro b h
    simp [hlml_event_set_create, fakeError_some s _ S h hS]
  · intro set h
    simp [hlml_event_set_free, fakeError_some s _ S h hS]
  · intro set b t h
    simp [hlml_event_set_wait, fakeError_some s _ S h hS]

/-- Counterexample to C2 as stated: `FAKE_DEVICE_GET_NAME` and
`FAKE_DEVICE_GET_HANDLE_BY_UUID` belong to the enumerated set of supported
call identities, yet with `HLML_ERROR_TIMEOUT` injected for both, the
corresponding calls still return `HLML_SUCCESS` — they never consult the
table. -/
theorem C2_counterexample :
    s_stub_err.flow_control.func_ret .FAKE_DEVICE_GET_NAME =
      .HLML_ERROR_TIMEOUT
    ∧ s_stub_err.flow_control.func_ret .FAKE_DEVICE_GET_HANDLE_BY_UUID =
      .HLML_ERROR_TIMEOUT
    ∧ hlml_device_get_name s_stub_err (some 0) NAME_MAX = .HLML_SUCCESS
    ∧ hlml_device_get_handle_by_UUID s_stub_err (some "u") true = .HLML_SUCCESS
    ∧ (.HLML_SUCCESS : hlml_return_t) ≠ .HLML_ERROR_TIMEOUT :=
  ⟨rfl, rfl, rfl, rfl, by decide⟩

/-- Witness for C2 at a state with a timeout injected for every operation. -/
theorem C2_witness :
    hlml_init s_allTimeout = (.HLML_ERROR_TIMEOUT, s_allTimeout)
    ∧ hlml_event_set_wait s_allTimeout (some es_empty) true 5 =
      (.HLML_ERROR_TIMEOUT, s_allTimeout, none) := by
  obtain ⟨h1, _, _, _, _, _, _, _, _, _, _, h12⟩ :=
    C2_amended_injected_error_short_circuits s_allTimeout .HLML_ERROR_TIMEOUT
      (by decide)
  exact ⟨h1 rfl, h12 (some es_empty) true 5 rfl⟩

/-- C3: in the initialized state with non-null arguments and no injected
error, the PCI-address lookup scans the registry in insertion order and
returns `HLML_SUCCESS` with the FIRST device whose stored address does NOT
compare equal to the query (the comparison is inverted), and returns
`HLML_ERROR_NOT_FOUND` exactly when every registered device's address equals
the query (in particular on an empty registry). -/
theorem C3_pci_lookup_matches_on_inequality (s : State) (addr : String)
    (herr : s.flow_control.func_ret .FAKE_DEVICE_GET_HANDLE_BY_PCI_BUS_ID =
      .HLML_SUCCESS)
    (hinit : s.main_struct.initialized = true) :
    (∀ i di, s.main_struct.devices_info.get? i = some di →
      di.pci_addr ≠ addr →
      (∀ j dj, j < i → s.main_struct.devices_info.get? j = some dj →
        dj.pci_addr = addr) →
      hlml_device_get_handle_by_pci_bus_id s (some addr) true =
        (.HLML_SUCCESS, some i))
    ∧ ((∀ di ∈ s.main_struct.devices_info, di.pci_addr = addr) →
        hlml_device_get_handle_by_pci_bus_id s (some addr) true =
          (.HLML_ERROR_NOT_FOUND, none))
    ∧ (hlml_device_get_handle_by_pci_bus_id s (some addr) true =
          (.HLML_ERROR_NOT_FOUND, none) →
        ∀ di ∈ s.main_struct.devices_info, di.pci_addr = addr) := by
  refine ⟨?_, ?_, ?_⟩
  · intro i di hget hne hmin
    have hscan := pciScan_eq_some addr s.main_struct.devices_info i di hget hne hmin
    simp [hlml_device_get_handle_by_pci_bus_id, fakeError_none s _ herr, hinit,
      hscan]
  · intro hall
    have hscan := (pciScan_eq_none_iff addr _).mpr hall
    simp [hlml_device_get_handle_by_pci_bus_id, fakeError_none s _ herr, hinit,
      hscan]
  · intro hres
    rcases hscan : pciScan addr s.main_struct.devices_info with _ | p
    · exact (pciScan_eq_none_iff addr _).mp hscan
    · exfalso
      simp [hlml_device_get_handle_by_pci_bus_id, fakeError_none s _ herr,
        hinit, hscan] at hres

/-- Witness for C3: in the two-device scenario, querying device A's exact
address returns device B — the first device whose address differs. -/
theorem C3_witness :
    hlml_device_get_handle_by_pci_bus_id s_ready (some "0000:01:00.0") true =
      (.HLML_SUCCESS, some 1) := by
  refine (C3_pci_lookup_matches_on_inequality s_ready "0000:01:00.0" rfl rfl).1
    1 ⟨"0000:02:00.0", 4128, 32902, "S2", 1⟩ rfl (by decide) ?_
  intro j dj hj hg
  cases j with
  | zero =>
    have hg' : (some (⟨"0000:01:00.0", 4128, 32902, "S1", 0⟩ : device_info_t)) =
        some dj := hg
    cases Option.some.inj hg'
    rfl
  | succ m => exact absurd hj (by omega)

/-- C4: event registration is idempotent — if registering a device into an
event set succeeded, registering the same device again returns `HLML_SUCCESS`
and leaves the slot array unchanged; and when every slot is occupied by other
devices, registration returns `HLML_ERROR_INVALID_ARGUMENT` with the event set
unchanged. -/
theorem C4_register_events_idempotent (s : State) (d : Option Nat) (t : Nat)
    (es es1 : hlml_event_set)
    (herr : s.flow_control.func_ret .FAKE_DEVICE_REGISTER_EVENTS =
      .HLML_SUCCESS) :
    (hlml_device_register_events s d t es = (.HLML_SUCCESS, es1) →
      hlml_device_register_events s d t es1 = (.HLML_SUCCESS, es1))
    ∧ ((∀ a ∈ es.dev_events, a ≠ none ∧ a ≠ d) →
      hlml_device_register_events s d t es =
        (.HLML_ERROR_INVALID_ARGUMENT, es)) := by
  constructor
  · intro h1
    simp only [hlml_device_register_events, fakeError_none s _ herr] at h1 ⊢
    rcases hscan : registerScan es.dev_events d with _ | slots
    · rw [hscan] at h1
      simp at h1
    · rw [hscan] at h1
      simp only [Prod.mk.injEq, true_and] at h1
      subst h1
      simp [registerScan_idem es.dev_events d slots hscan]
  · intro hfull
    simp [hlml_device_register_events, fakeError_none s _ herr,
      registerScan_full es.dev_events d hfull]

/-- Witness for C4: re-registering device A into the event set that already
holds it succeeds and changes nothing. -/
theorem C4_witness :
    hlml_device_register_events s_ready (some 0) HLML_EVENT_CRITICAL_ERR es_A =
      (.HLML_SUCCESS, es_A) :=
  (C4_register_events_idempotent s_ready (some 0) HLML_EVENT_CRITICAL_ERR
    es_empty es_A rfl).1 rfl

/-- C7 (amended): after initialization, with no injected error and the
registry within its `DEVICES_MAX` bound, looking up the `index` of a
registered device that passes the guard (`index < devices_num`) returns
`HLML_SUCCESS` with the FIRST registered device carrying that index value; a
queried index at or above `devices_num` (but below `2^31`, where the `int` cast
keeps it non-negative) or a null output pointer reports
`HLML_ERROR_INVALID_ARGUMENT`. -/
theorem C7_amended_index_lookup (s : State)
    (herr : s.flow_control.func_ret .FAKE_DEVICE_GET_HANDLE_BY_INDEX =
      .HLML_SUCCESS)
    (hinit : s.main_struct.initialized = true)
    (hcap : s.main_struct.devices_info.length ≤ DEVICES_MAX) :
    (∀ D ∈ s.main_struct.devices_info,
      D.index < s.main_struct.devices_info.length →
      ∃ i di, s.main_struct.devices_info.get? i = some di ∧ di.index = D.index ∧
        (∀ j dj, j < i → s.main_struct.devices_info.get? j = some dj →
          dj.index ≠ D.index) ∧
        hlml_device_get_handle_by_index s D.index true = (.HLML_SUCCESS, some i))
    ∧ (∀ i, s.main_struct.devices_info.length ≤ i → i < 2 ^ 31 →
        hlml_device_get_handle_by_index s i true =
          (.HLML_ERROR_INVALID_ARGUMENT, none))
    ∧ (∀ i, hlml_device_get_handle_by_index s i false =
        (.HLML_ERROR_INVALID_ARGUMENT, none)) := by
  have h8 : DEVICES_MAX = 8 := rfl
  have h31 : (2 : Nat) ^ 31 = 2147483648 := by norm_num
  refine ⟨?_, ?_, ?_⟩
  · intro D hD hDlt
    rcases indexScan_first D.index s.main_struct.devices_info ⟨D, hD, rfl⟩ with
      ⟨i, di, hget, hidx, hmin, hscan⟩
    refine ⟨i, di, hget, hidx, hmin, ?_⟩
    have hc32 : intCast32 D.index = (D.index : Int) := by
      unfold intCast32
      rw [if_pos (by omega)]
    have hguard : ¬(intCast32 D.index ≥
        (s.main_struct.devices_info.length : Int)) := by
      rw [hc32]
      omega
    simp [hlml_device_get_handle_by_index, fakeError_none s _ herr, hinit,
      hguard, hscan]
  · intro i hge hlt31
    have hc32 : intCast32 i = (i : Int) := by
      unfold intCast32
      rw [if_pos hlt31]
    have hguard : intCast32 i ≥ (s.main_struct.devices_info.length : Int) := by
      rw [hc32]
      omega
    simp [hlml_device_get_handle_by_index, fakeError_none s _ herr, hinit,
      hguard]
  · intro i
    simp [hlml_device_get_handle_by_index, fakeError_none s _ herr, hinit]

/-- Counterexample to C7 as stated: with a single registered device whose
`index` field is 1 (so `devices_num = 1`), looking up that device's own index
reports `HLML_ERROR_INVALID_ARGUMENT` instead of returning the device (the
guard compares the queried index against `devices_num`, not against the stored
index fields); and the queried index `2^31`, although at or above
`devices_num`, is NOT reported as `HLML_ERROR_INVALID_ARGUMENT` — the
`(int)index` cast makes it negative, bypassing the guard, and the scan reports
`HLML_ERROR_NOT_FOUND`. -/
theorem C7_counterexample :
    s_oneDev.main_struct.initialized = true
    ∧ s_oneDev.main_struct.devices_info =
      [{ pci_addr := "0000:03:00.0", device_id := 4128, vendor_id := 32902,
         serial := "S9", index := 1 }]
    ∧ hlml_device_get_handle_by_index s_oneDev 1 true =
      (.HLML_ERROR_INVALID_ARGUMENT, none)
    ∧ hlml_device_get_handle_by_index s_oneDev (2 ^ 31) true =
      (.HLML_ERROR_NOT_FOUND, none) :=
  ⟨rfl, rfl, rfl, rfl⟩

/-- Witness for C7 in the two-device scenario: device B's index 1 is below
`devices_num = 2`, and the lookup returns it. -/
theorem C7_witness :
    ∃ i di, s_ready.main_struct.devices_info.get? i = some di ∧ di.index = 1 ∧
      hlml_device_get_handle_by_index s_ready 1 true = (.HLML_SUCCESS, some i) := by
  obtain ⟨h1, _, _⟩ := C7_amended_index_lookup s_ready rfl rfl (by decide)
  obtain ⟨i, di, hget, hidx, _, hres⟩ :=
    h1 ⟨"0000:02:00.0", 4128, 32902, "S2", 1⟩ (by decide) (by decide)
  exact ⟨i, di, hget, hidx, hres⟩

/-- C8 (amended): for `hlml_device_get_serial` with a non-null buffer of
positive length: an injected non-success status blanks the buffer and is
returned; otherwise a null device handle yields `HLML_SUCCESS` with an empty
string; otherwise a buffer length below `SERIAL_MAX` (64) — or at or above
`2^31`, where the `(int)length` cast turns it negative — yields
`HLML_ERROR_INSUFFICIENT_SIZE`; otherwise (64 ≤ length < 2^31) the device's
stored serial is copied and `HLML_SUCCESS` returned. -/
theorem C8_amended_get_serial (s : State) (dev : Option Nat) (d : Nat)
    (r : hlml_return_t) (len : Nat) (hpos : 0 < len) :
    (s.flow_control.func_ret .FAKE_DEVICE_GET_SERIAL = r →
      r ≠ .HLML_SUCCESS →
      hlml_device_get_serial s dev true len = some (r, some ""))
    ∧ (s.flow_control.func_ret .FAKE_DEVICE_GET_SERIAL = .HLML_SUCCESS →
        hlml_device_get_serial s none true len = some (.HLML_SUCCESS, some ""))
    ∧ (s.flow_control.func_ret .FAKE_DEVICE_GET_SERIAL = .HLML_SUCCESS →
        len < SERIAL_MAX →
        hlml_device_get_serial s (some d) true len =
          some (.HLML_ERROR_INSUFFICIENT_SIZE, none))
    ∧ (s.flow_control.func_ret .FAKE_DEVICE_GET_SERIAL = .HLML_SUCCESS →
        SERIAL_MAX ≤ len → len < 2 ^ 31 →
        (derefDevice s.main_struct.devices_info d).serial.data.length ≤ len →
        hlml_device_get_serial s (some d) true len =
          some (.HLML_SUCCESS,
                some (derefDevice s.main_struct.devices_info d).serial)) := by
  have hS64 : SERIAL_MAX = 64 := rfl
  have h31 : (2 : Nat) ^ 31 = 2147483648 := by norm_num
  refine ⟨?_, ?_, ?_, ?_⟩
  · intro h hr
    simp [hlml_device_get_serial, h, hr, hpos.ne']
  · intro h
    simp [hlml_device_get_serial, h, hpos.ne']
  · intro h hlt
    have hc32 : intCast32 len = (len : Int) := by
      unfold intCast32
      rw [if_pos (by omega)]
    have hcond : (SERIAL_MAX : Int) > intCast32 len := by
      rw [hc32]
      omega
    simp [hlml_device_get_serial, h, hpos.ne', hcond]
  · intro h hge hlt31 hfit
    have hc32 : intCast32 len = (len : Int) := by
      unfold intCast32
      rw [if_pos hlt31]
    have hcond : ¬((SERIAL_MAX : Int) > intCast32 len) := by
      rw [hc32]
      omega
    have hcopy : strncpyStr (derefDevice s.main_struct.devices_info d).serial
        len = (derefDevice s.main_struct.devices_info d).serial := by
      unfold strncpyStr
      rw [List.take_of_length_le hfit]
    simp [hlml_device_get_serial, h, hpos.ne', hcond, hcopy]

/-- Counterexample to C8 as stated: with a valid device and a buffer of length
`2^31` — far above the maximum serial length, so the claim demands
`HLML_SUCCESS` with the serial copied — the call returns
`HLML_ERROR_INSUFFICIENT_SIZE`, because `(int)length` reinterprets `2^31` as a
negative `int`. -/
theorem C8_counterexample :
    SERIAL_MAX ≤ 2 ^ 31
    ∧ s_ready.flow_control.func_ret .FAKE_DEVICE_GET_SERIAL = .HLML_SUCCESS
    ∧ hlml_device_get_serial s_ready (some 1) true (2 ^ 31) =
      some (.HLML_ERROR_INSUFFICIENT_SIZE, none) :=
  ⟨by decide, rfl, rfl⟩

/-- Witness for C8: device B's serial is returned whole into a 64-byte
buffer, and a 63-byte buffer is rejected. -/
theorem C8_witness :
    hlml_device_get_serial s_ready (some 1) true 64 =
      some (.HLML_SUCCESS, some "S2")
    ∧ hlml_device_get_serial s_ready (some 1) true 63 =
      some (.HLML_ERROR_INSUFFICIENT_SIZE, none)
    ∧ hlml_device_get_serial s_ready none true 64 =
      some (.HLML_SUCCESS, some "") := by
  obtain ⟨-, h2, -, h4⟩ :=
    C8_amended_get_serial s_ready (some 1) 1 .HLML_SUCCESS 64 (by decide)
  obtain ⟨-, -, h3, -⟩ :=
    C8_amended_get_serial s_ready (some 1) 1 .HLML_SUCCESS 63 (by decide)
  exact ⟨h4 rfl (by decide) (by decide) (by decide), h3 rfl (by decide), h2 rfl⟩

/-- C1: for every initialized state with no injected error for the wait
operation, a non-null event set and a non-null output pointer,
`hlml_event_set_wait` delivers to the first registered device (in registration
order) whose serial equals the most recently queued event's serial — removing
that event from the tail of the queue and returning `HLML_SUCCESS` with a
record naming that device and event type `HLML_EVENT_CRITICAL_ERR`; if no
registered device matches the tail event (in particular when the queue is
empty) it returns `HLML_ERROR_TIMEOUT` with the state unchanged; the
`timeoutms` argument never affects the result; and in the concrete A/B
scenario one wait returns a record for B leaving the queue empty and a second
wait returns `HLML_ERROR_TIMEOUT`. -/
theorem C1_event_set_wait_delivery (s : State) (es : hlml_event_set) (t : Nat)
    (herr : s.flow_control.func_ret .FAKE_EVENT_SET_WAIT = .HLML_SUCCESS)
    (hinit : s.main_struct.initialized = true) :
    (∀ d, specFirstMatch s.main_struct.devices_info s.flow_control.events
        es.dev_events = some d →
      hlml_event_set_wait s (some es) true t =
        (.HLML_SUCCESS,
         { s with
           flow_control :=
             { s.flow_control with
               events := s.flow_control.events.dropLast } },
         some { device := some d, event_type := HLML_EVENT_CRITICAL_ERR }))
    ∧ (specFirstMatch s.main_struct.devices_info s.flow_control.events
        es.dev_events = none →
      hlml_event_set_wait s (some es) true t = (.HLML_ERROR_TIMEOUT, s, none))
    ∧ (s.flow_control.events = [] →
      hlml_event_set_wait s (some es) true t = (.HLML_ERROR_TIMEOUT, s, none))
    ∧ (∀ (s2 : State) (set : Option hlml_event_set) (b : Bool) (t1 t2 : Nat),
        hlml_event_set_wait s2 set b t1 = hlml_event_set_wait s2 set b t2)
    ∧ (hlml_event_set_wait s_queued (some es_AB) true t =
        (.HLML_SUCCESS, s_ready,
         some { device := some 1, event_type := HLML_EVENT_CRITICAL_ERR })
      ∧ hlml_event_set_wait s_ready (some es_AB) true t =
        (.HLML_ERROR_TIMEOUT, s_ready, none)) := by
  refine ⟨?_, ?_, ?_, ?_, rfl, rfl⟩
  · intro d hd
    have hscan : waitScan s.main_struct.devices_info s.flow_control.events
        es.dev_events = some d := by
      rw [waitScan_eq_specFirstMatch]
      exact hd
    simp [hlml_event_set_wait, fakeError_none s _ herr, hinit, hscan]
  · intro hd
    have hscan := (waitScan_eq_specFirstMatch s.main_struct.devices_info
      s.flow_control.events es.dev_events).trans hd
    simp [hlml_event_set_wait, fakeError_none s _ herr, hinit, hscan]
  · intro hnil
    have hscan : waitScan s.main_struct.devices_info s.flow_control.events
        es.dev_events = none := by
      rw [waitScan_eq_specFirstMatch, hnil]
      exact specFirstMatch_nil_events _ _
    simp [hlml_event_set_wait, fakeError_none s _ herr, hinit, hscan]
  · intro s2 set b t1 t2
    rfl

/-- Witness for C1: the concrete scenario — devices A ("S1") and B ("S2")
registered into one event set, event "S2" queued — at timeout 17. -/
theorem C1_witness :
    hlml_event_set_wait s_queued (some es_AB) true 17 =
      (.HLML_SUCCESS, s_ready,
       some { device := some 1, event_type := HLML_EVENT_CRITICAL_ERR })
    ∧ hlml_event_set_wait s_ready (some es_AB) true 17 =
      (.HLML_ERROR_TIMEOUT, s_ready, none) :=
  (C1_event_set_wait_delivery s_queued es_AB 17 rfl rfl).2.2.2.2
